import Mathlib

/-!
Shallow embedding of the property query/filter engine of
`ivy_homes_agent` (`property_service.py` and the formatting code of
`agent.py`).

Property records are Python dicts whose fields may be absent; we model
each field as an `Option`.  Numeric amounts appear as Python ints/floats
but every operation performed on them (comparison, equality, integer
rendering) is exact on integers, so they are modelled as `Int`.
Python truthiness (`if location:`, `if min_price and ...`) is modelled
explicitly: `none`, `some ""` and `some 0` are falsy.
-/

namespace IvyHomes

/-- Checks whether `n` is a prefix of the character list (Python string
equality on the leading segment). -/
def prefixAux : List Char → List Char → Bool
  | [], _ => true
  | _ :: _, [] => false
  | a :: as, b :: bs => a == b && prefixAux as bs

/-- Checks whether the character list `n` occurs contiguously in the second
list, as Python's `in` operator on strings. -/
def substrAux (n : List Char) : List Char → Bool
  | [] => n.isEmpty
  | c :: t => prefixAux n (c :: t) || substrAux n t

/-- Python's `needle in hay` on strings: contiguous substring test. -/
def strContains (hay needle : String) : Bool :=
  substrAux needle.toList hay.toList

/-- Python's `str.lower`, mapping each character to its lowercase form
(the catalog and criteria are ASCII, where this agrees with Python). -/
def strLower (s : String) : String :=
  String.mk (s.toList.map Char.toLower)

/-- A property record (`prop` dict in `property_service.py`).  Every field
may be absent from the source document. -/
structure Property where
  id : Option String := none
  type : Option String := none
  city : Option String := none
  neighborhood : Option String := none
  address : Option String := none
  price : Option Int := none
  bedrooms : Option Int := none
  bathrooms : Option Int := none
  square_feet : Option Int := none
  year_built : Option Int := none
  description : Option String := none
  deriving DecidableEq, Repr

/-- The optional search criteria of `PropertyService._search_file`
(parameters `location, property_type, min_price, max_price, bedrooms,
bathrooms`). -/
structure Criteria where
  location : Option String := none
  property_type : Option String := none
  min_price : Option Int := none
  max_price : Option Int := none
  bedrooms : Option Int := none
  bathrooms : Option Int := none
  deriving DecidableEq, Repr

/-- Python truthiness of an optional string: `None` and `""` are falsy. -/
def optStrTruthy : Option String → Bool
  | none => false
  | some s => !(s == "")

/-- Python truthiness of an optional number: `None` and `0` are falsy. -/
def optIntTruthy : Option Int → Bool
  | none => false
  | some n => !(n == 0)

/-- The location filter of `_search_file`: when `location` is truthy the
record survives iff `location.lower()` occurs in
`city.lower() + " " + neighborhood.lower() + " " + address.lower()`
(missing fields defaulting to `""` via `dict.get`). -/
def passes_location (location : Option String) (prop : Property) : Bool :=
  if optStrTruthy location then
    let prop_location :=
      strLower (prop.city.getD "") ++ " " ++
      strLower (prop.neighborhood.getD "") ++ " " ++
      strLower (prop.address.getD "")
    strContains prop_location (strLower (location.getD ""))
  else
    true

/-- The property-type filter: when truthy, requires
`prop.get("type", "").lower() == property_type.lower()`. -/
def passes_type (property_type : Option String) (prop : Property) : Bool :=
  if optStrTruthy property_type then
    strLower (prop.type.getD "") == strLower (property_type.getD "")
  else
    true

/-- The min-price filter: `if min_price and price < min_price: continue`
with `price = prop.get("price", 0)`. -/
def passes_min_price (min_price : Option Int) (prop : Property) : Bool :=
  let price := prop.price.getD 0
  if optIntTruthy min_price then
    !(price < min_price.getD 0)
  else
    true

/-- The max-price filter: `if max_price and price > max_price: continue`. -/
def passes_max_price (max_price : Option Int) (prop : Property) : Bool :=
  let price := prop.price.getD 0
  if optIntTruthy max_price then
    !(price > max_price.getD 0)
  else
    true

/-- The bedrooms filter: `if bedrooms:` then
`prop.get("bedrooms") != bedrooms` skips the record; absence of the field
(`None`) never equals an integer. -/
def passes_bedrooms (bedrooms : Option Int) (prop : Property) : Bool :=
  if optIntTruthy bedrooms then
    prop.bedrooms == bedrooms
  else
    true

/-- The bathrooms filter, identical in shape to the bedrooms filter. -/
def passes_bathrooms (bathrooms : Option Int) (prop : Property) : Bool :=
  if optIntTruthy bathrooms then
    prop.bathrooms == bathrooms
  else
    true

/-- A record survives one loop iteration of `_search_file` iff it passes
every filter (each `continue` skips the `results.append`). -/
def matchesCriteria (c : Criteria) (prop : Property) : Bool :=
  passes_location c.location prop &&
  passes_type c.property_type prop &&
  passes_min_price c.min_price prop &&
  passes_max_price c.max_price prop &&
  passes_bedrooms c.bedrooms prop &&
  passes_bathrooms c.bathrooms prop

/-- The `for prop in self.properties` loop of `_search_file` with its
accumulating `results` list: a matching record is appended, and the loop
breaks as soon as `len(results) >= max_results` (checked after the
append). -/
def searchLoop (c : Criteria) (max_results : Int) :
    List Property → List Property → List Property
  | [], results => results
  | prop :: rest, results =>
    if matchesCriteria c prop then
      let results := results ++ [prop]
      if max_results ≤ (results.length : Int) then results
      else searchLoop c max_results rest results
    else searchLoop c max_results rest results

/-- `PropertyService._search_file`: scans the loaded catalog in order,
keeps records matching every supplied criterion and stops after
`max_results` matches. -/
def search_file (properties : List Property) (c : Criteria)
    (max_results : Int) : List Property :=
  searchLoop c max_results properties []

/-- `PropertyService.get_property_details` in file mode: linear scan
returning the first record with `prop.get("id") == property_id`, `None`
when there is no such record. -/
def get_property_details (properties : List Property)
    (property_id : String) : Option Property :=
  match properties with
  | [] => none
  | prop :: rest =>
    if prop.id == some property_id then some prop
    else get_property_details rest property_id

/-- Groups a reversed digit list into blocks of three, inserting the
thousands separator of Python's `format(x, ",.0f")`. -/
def commaGroup : List Char → List Char
  | a :: b :: c :: d :: rest => a :: b :: c :: ',' :: commaGroup (d :: rest)
  | l => l

/-- Python's `f"{x:,.0f}"` on an integral amount: decimal digits with a
comma every three positions, minus sign in front. -/
def formatCommas (n : Int) : String :=
  if n < 0 then
    "-" ++ String.mk (commaGroup (toString (-n).toNat).toList.reverse).reverse
  else
    String.mk (commaGroup (toString n.toNat).toList.reverse).reverse

/-- The per-record clause of the multi-result branch of
`format_property_summary`:
`"Property {i}: A {bedrooms}-bedroom {type} in {neighborhood or city} for ${price}. "`. -/
def summaryClause (i : Nat) (prop : Property) : String :=
  "Property " ++ toString i ++ ": A " ++
  toString (prop.bedrooms.getD 0) ++ "-bedroom " ++
  prop.type.getD "property" ++ " in " ++
  prop.neighborhood.getD (prop.city.getD "the area") ++
  " for $" ++ formatCommas (prop.price.getD 0) ++ ". "

/-- The `for i, prop in enumerate(properties[:3], 1)` loop, appending one
clause per record with a running index. -/
def summaryClauses (i : Nat) : List Property → String
  | [] => ""
  | prop :: rest => summaryClause i prop ++ summaryClauses (i + 1) rest

/-- `PropertyService.format_property_summary`: an apology for zero
records, a single descriptive sentence for one record, and for several
records a count header, up to three clauses, an omitted-count note past
three, and a closing question. -/
def format_property_summary (properties : List Property) : String :=
  match properties with
  | [] => "I couldn't find any properties matching your criteria."
  | [prop] =>
    "I found a " ++ prop.type.getD "property" ++ " at " ++
    prop.address.getD "an available location" ++ ". " ++
    "It has " ++ toString (prop.bedrooms.getD 0) ++ " bedrooms, " ++
    toString (prop.bathrooms.getD 0) ++ " bathrooms, " ++
    "and is priced at $" ++ formatCommas (prop.price.getD 0) ++ ". " ++
    prop.description.getD ""
  | props =>
    "I found " ++ toString props.length ++
    " properties. Here are the top matches: " ++
    summaryClauses 1 (props.take 3) ++
    (if 3 < props.length then
      "And " ++ toString (props.length - 3) ++ " more options. "
    else "") ++
    "Would you like more details on any of these?"

/-- Rounds `n / d` (with `d > 0`) to the nearest integer, ties to even:
the rounding Python's `f"{x:.2f}"` applies to an exactly representable
quotient. -/
def roundHalfEvenN (n d : Nat) : Nat :=
  let q := n / d
  let r := n % d
  if 2 * r < d then q
  else if d < 2 * r then q + 1
  else if q % 2 = 0 then q else q + 1

/-- Python's `f"{n/d:.2f}"` for nonnegative `n` and positive `d`, via
exact rational rounding to hundredths (it agrees with the float rendering
on the amounts the catalog uses). -/
def formatFixed2 (n d : Nat) : String :=
  let h := roundHalfEvenN (n * 100) d
  toString (h / 100) ++ "." ++
  (if h % 100 < 10 then "0" else "") ++ toString (h % 100)

/-- The Indian-currency price rendering of `get_property_details` in
`agent.py`: amounts at or above 10,000,000 are shown in crores, smaller
amounts in lakhs, both to two decimals. -/
def format_price_indian (price : Int) : String :=
  if 10000000 ≤ price then
    "₹" ++ formatFixed2 price.toNat 10000000 ++ " crores"
  else
    "₹" ++ formatFixed2 price.toNat 100000 ++ " lakhs"

/-- The textual response of the `get_property_details` tool in
`agent.py`: a not-found sentence when the lookup misses, otherwise the
detail sentence around `format_price_indian`. -/
def get_property_details_text (properties : List Property)
    (property_id : String) : String :=
  match get_property_details properties property_id with
  | none => "I couldn't find a flat with ID " ++ property_id ++ "."
  | some prop =>
    "Here are the details for this flat: " ++
    "It's a " ++ toString (prop.bedrooms.getD 0) ++ "-BHK flat with " ++
    toString (prop.bathrooms.getD 0) ++ " bathrooms, " ++
    "located in " ++ prop.neighborhood.getD "" ++ ", " ++
    prop.city.getD "Bangalore" ++ ". " ++
    "The address is " ++ prop.address.getD "available on request" ++ ". " ++
    "The price is " ++ format_price_indian (prop.price.getD 0) ++ ". " ++
    "It has " ++ toString (prop.square_feet.getD 0) ++
    " square feet of space. " ++
    prop.description.getD "" ++ " " ++
    "Built in " ++
    (match prop.year_built with
     | some y => toString y
     | none => "recent year") ++ ". "

/-- The outcome of opening and parsing the configured data file, as seen
by `PropertyService._load_from_file`.  The document is modelled only as
far as the loader inspects it: either it is a JSON object whose bindings
may include a `"properties"` array, or it is some other JSON value (on
which Python's `data.get` raises `AttributeError`). -/
inductive LoadSource where
  | noPath : LoadSource
  | missingFile : LoadSource
  | unreadable : LoadSource
  | malformed : LoadSource
  | parsedObj : List (String × List Property) → LoadSource
  | parsedNonObj : LoadSource
  deriving DecidableEq

/-- First binding of `key` in a parsed JSON object (Python dict lookup;
later duplicate keys would overwrite earlier ones in a real dict, and the
model keeps the resolved binding list). -/
def jsonLookup (key : String) :
    List (String × List Property) → Option (List Property)
  | [] => none
  | (k, v) :: rest => if k == key then some v else jsonLookup key rest

/-- The `try:` block of `_load_from_file`: reading raises for an
unreadable file, `json.load` raises on a malformed document, `data.get`
raises on a non-object document; a missing file only logs a warning and
leaves the list empty; a parsed object yields
`data.get("properties", [])`. -/
def tryLoad : LoadSource → Except String (List Property)
  | .noPath => .ok []
  | .missingFile => .ok []
  | .unreadable => .error "OSError"
  | .malformed => .error "JSONDecodeError"
  | .parsedObj fields => .ok ((jsonLookup "properties" fields).getD [])
  | .parsedNonObj => .error "AttributeError"

/-- `PropertyService._load_from_file`: an unset `data_path` returns early
with the empty list; any exception inside the `try:` block is caught and
logged, leaving `self.properties` as the empty list it was initialised
to. -/
def load_from_file : LoadSource → List Property
  | .noPath => []
  | src =>
    match tryLoad src with
    | .ok props => props
    | .error _ => []

/-! ### Sample records used by witnesses and counterexamples -/

/-- The concrete record `P1` of the spec's concrete scenario. -/
def sampleKoramangala : Property :=
  { id := some "P1", type := some "apartment", city := some "Bangalore",
    neighborhood := some "Koramangala", price := some 9500000,
    bedrooms := some 2, bathrooms := some 2 }

/-- The concrete record `P2` of the spec's concrete scenario. -/
def sampleWhitefield : Property :=
  { id := some "P2", type := some "apartment", city := some "Bangalore",
    neighborhood := some "Whitefield", price := some 12000000,
    bedrooms := some 3, bathrooms := some 2 }

/-- A record with every field absent. -/
def sampleEmpty : Property := {}

/-- A record whose only field is a price of 5. -/
def samplePrice5 : Property := { price := some 5 }

/-- A record whose only field is a price of 10. -/
def samplePrice10 : Property := { price := some 10 }

/-- A record whose only field is a bedroom count of 3. -/
def sampleBed3 : Property := { bedrooms := some 3 }

/-- A record whose only field is a bedroom count of 2. -/
def sampleBed2 : Property := { bedrooms := some 2 }

/-! ### Lemmas about the search loop -/

/-- While fewer than `max_results` matches have been collected, the loop
computes the accumulated results followed by the first
`max_results - len(results)` remaining matches, in catalog order. -/
theorem searchLoop_eq_take (c : Criteria) (max : Int) :
    ∀ (props acc : List Property), (acc.length : Int) < max →
      searchLoop c max props acc =
        acc ++ (props.filter (matchesCriteria c)).take
          (max - acc.length).toNat := by
  intro props
  induction props with
  | nil => intro acc _; simp [searchLoop]
  | cons q rest ih =>
    intro acc hacc
    by_cases hm : matchesCriteria c q
    · by_cases hstop : max ≤ (((acc ++ [q]).length : Nat) : Int)
      · simp only [searchLoop, hm, if_true, hstop]
        have hlen : (max - (acc.length : Int)).toNat = 1 := by
          simp only [List.length_append, List.length_cons,
            List.length_nil] at hstop
          omega
        rw [List.filter_cons_of_pos hm, hlen, List.take_succ_cons,
          List.take_zero]
      · simp only [searchLoop, hm, if_true, hstop, if_false]
        have hacc' : (((acc ++ [q]).length : Nat) : Int) < max := by
          omega
        rw [ih (acc ++ [q]) hacc', List.filter_cons_of_pos hm]
        have hlen : (max - (acc.length : Int)).toNat =
            (max - ((acc ++ [q]).length : Nat)).toNat + 1 := by
          simp only [List.length_append, List.length_cons, List.length_nil]
          omega
        rw [hlen, List.take_succ_cons, List.append_assoc]
        simp
    · have hm' : matchesCriteria c q = false := by simpa using hm
      simp only [searchLoop, hm', Bool.false_eq_true, if_false]
      rw [ih acc hacc, List.filter_cons_of_neg (by simp [hm'])]

/-- Every record the loop returns was already accumulated or is a
matching record of the remaining catalog. -/
theorem mem_searchLoop {c : Criteria} {max : Int} :
    ∀ {props acc p}, p ∈ searchLoop c max props acc →
      p ∈ acc ∨ (p ∈ props ∧ matchesCriteria c p = true) := by
  intro props
  induction props with
  | nil =>
    intro acc p h
    simp only [searchLoop] at h
    exact Or.inl h
  | cons q rest ih =>
    intro acc p h
    by_cases hm : matchesCriteria c q
    · by_cases hstop : max ≤ (((acc ++ [q]).length : Nat) : Int)
      · simp only [searchLoop, hm, if_true, hstop] at h
        rcases List.mem_append.1 h with h1 | h1
        · exact Or.inl h1
        · simp only [List.mem_singleton] at h1
          subst h1
          exact Or.inr ⟨List.mem_cons_self _ _, hm⟩
      · simp only [searchLoop, hm, if_true, hstop, if_false] at h
        rcases ih h with h1 | h1
        · rcases List.mem_append.1 h1 with h2 | h2
          · exact Or.inl h2
          · simp only [List.mem_singleton] at h2
            subst h2
            exact Or.inr ⟨List.mem_cons_self _ _, hm⟩
        · exact Or.inr ⟨List.mem_cons_of_mem _ h1.1, h1.2⟩
    · have hm' : matchesCriteria c q = false := by simpa using hm
      simp only [searchLoop, hm', Bool.false_eq_true, if_false] at h
      rcases ih h with h1 | h1
      · exact Or.inl h1
      · exact Or.inr ⟨List.mem_cons_of_mem _ h1.1, h1.2⟩

/-- When no record of the remaining catalog matches, the loop returns the
accumulator unchanged, whatever the result cap. -/
theorem searchLoop_of_no_match {c : Criteria} {max : Int} :
    ∀ {props acc}, (∀ p ∈ props, matchesCriteria c p = false) →
      searchLoop c max props acc = acc := by
  intro props
  induction props with
  | nil => intro acc _; simp [searchLoop]
  | cons q rest ih =>
    intro acc hall
    have hm : matchesCriteria c q = false := hall q (List.mem_cons_self _ _)
    simp only [searchLoop, hm, Bool.false_eq_true, if_false]
    exact ih fun p hp => hall p (List.mem_cons_of_mem _ hp)

/-- Two criteria that accept exactly the same records produce the same
loop result. -/
theorem searchLoop_congr {c₁ c₂ : Criteria}
    (hc : ∀ p, matchesCriteria c₁ p = matchesCriteria c₂ p) (max : Int) :
    ∀ props acc, searchLoop c₁ max props acc = searchLoop c₂ max props acc := by
  intro props
  induction props with
  | nil => intro acc; simp [searchLoop]
  | cons q rest ih =>
    intro acc
    by_cases hm : matchesCriteria c₂ q
    · by_cases hstop : max ≤ (((acc ++ [q]).length : Nat) : Int)
      · simp only [searchLoop, hc q, hm, if_true, hstop]
      · simp only [searchLoop, hc q, hm, if_true, hstop, if_false]
        exact ih (acc ++ [q])
    · have hm' : matchesCriteria c₂ q = false := by simpa using hm
      simp only [searchLoop, hc q, hm', Bool.false_eq_true, if_false]
      exact ih acc

/-- Decomposition of a successful match into the six filters. -/
theorem matchesCriteria_eq_true {c : Criteria} {p : Property}
    (h : matchesCriteria c p = true) :
    passes_location c.location p = true ∧
    passes_type c.property_type p = true ∧
    passes_min_price c.min_price p = true ∧
    passes_max_price c.max_price p = true ∧
    passes_bedrooms c.bedrooms p = true ∧
    passes_bathrooms c.bathrooms p = true := by
  simp only [matchesCriteria, Bool.and_eq_true] at h
  exact ⟨h.1.1.1.1.1, h.1.1.1.1.2, h.1.1.1.2, h.1.1.2, h.1.2, h.2⟩

/-! ### Claims -/

/-- C1 (amended): for every positive result cap, `search` returns exactly
the first `result_cap` matching records in catalog load order — the
results list is the `take` of the `filter` — and in particular never more
than `result_cap` records.  (For `result_cap ≤ 0` the cap check, being
placed after the append, lets one match through; see the
counterexample.) -/
theorem search_file_cap_and_order (props : List Property) (c : Criteria)
    (max : Int) (h : 1 ≤ max) :
    search_file props c max =
      (props.filter (matchesCriteria c)).take max.toNat ∧
    (search_file props c max).length ≤ max.toNat := by
  have h0 : (([] : List Property).length : Int) < max := by simp; omega
  have heq := searchLoop_eq_take c max props [] h0
  simp only [List.length_nil, Int.ofNat_zero, Int.sub_zero,
    List.nil_append] at heq
  have hsf : search_file props c max =
      (props.filter (matchesCriteria c)).take max.toNat := heq
  refine ⟨hsf, ?_⟩
  rw [hsf]
  exact List.length_take_le _ _

/-- Witness for C1 at a concrete three-record catalog and cap 2. -/
theorem search_file_cap_and_order_witness :
    (1 : Int) ≤ 2 ∧
    (search_file [sampleEmpty, samplePrice5, samplePrice10] { } 2 =
      ([sampleEmpty, samplePrice5,
        samplePrice10].filter (matchesCriteria { })).take (2 : Int).toNat ∧
    (search_file [sampleEmpty, samplePrice5, samplePrice10] { } 2).length ≤
      (2 : Int).toNat) :=
  ⟨by decide,
   search_file_cap_and_order [sampleEmpty, samplePrice5, samplePrice10]
     { } 2 (by decide)⟩

/-- Counterexample for C1 as stated: with `result_cap = 0` the loop still
returns the first matching record, because the cap is only tested after a
match has been appended — so `search` is not bounded by the cap for every
`result_cap`. -/
theorem search_file_zero_cap_counterexample :
    search_file [sampleEmpty] { } 0 = [sampleEmpty] ∧
    (search_file [sampleEmpty] { } 0).length = 1 := by
  constructor <;> rfl

/-- C2 (amended): every record returned by `search` respects each price
bound that is supplied *and nonzero* (bounds inclusive), the effective
price of a record being `prop.get("price", 0)`; in particular a record
with a missing price is excluded whenever a positive lower bound is
supplied.  (A supplied bound of exactly 0 is falsy in Python and imposes
no constraint; see the counterexample.) -/
theorem search_file_price_bounds (props : List Property) (c : Criteria)
    (max : Int) (p : Property) (hp : p ∈ search_file props c max) :
    (∀ lo, c.min_price = some lo → lo ≠ 0 → lo ≤ p.price.getD 0) ∧
    (∀ hi, c.max_price = some hi → hi ≠ 0 → p.price.getD 0 ≤ hi) ∧
    (∀ lo, c.min_price = some lo → 0 < lo →
      p.price ≠ none ∧ lo ≤ p.price.getD 0) := by
  rcases mem_searchLoop hp with h | h
  · simp at h
  rcases matchesCriteria_eq_true h.2 with ⟨-, -, hmin, hmax, -, -⟩
  have hlo : ∀ lo, c.min_price = some lo → lo ≠ 0 → lo ≤ p.price.getD 0 := by
    intro lo hc hne
    rw [hc] at hmin
    simp only [passes_min_price, optIntTruthy, Option.getD_some] at hmin
    have : (lo == 0) = false := by simpa using hne
    simp only [this, Bool.not_false, if_true, Bool.not_eq_true',
      decide_eq_false_iff_not, not_lt] at hmin
    exact hmin
  have hhi : ∀ hi, c.max_price = some hi → hi ≠ 0 → p.price.getD 0 ≤ hi := by
    intro hi hc hne
    rw [hc] at hmax
    simp only [passes_max_price, optIntTruthy, Option.getD_some] at hmax
    have : (hi == 0) = false := by simpa using hne
    simp only [this, Bool.not_false, if_true, Bool.not_eq_true',
      decide_eq_false_iff_not, not_lt] at hmax
    exact hmax
  refine ⟨hlo, hhi, ?_⟩
  intro lo hc hpos
  have hle := hlo lo hc (by omega)
  refine ⟨?_, hle⟩
  intro hnone
  rw [hnone] at hle
  simp at hle
  omega

/-- Witness for C2: a record priced 5 survives a search with lower bound
2, and indeed satisfies the bound conclusions. -/
theorem search_file_price_bounds_witness :
    samplePrice5 ∈ search_file [samplePrice5] { min_price := some 2 } 5 ∧
    ((∀ lo, ({ min_price := some 2 } : Criteria).min_price = some lo →
        lo ≠ 0 → lo ≤ samplePrice5.price.getD 0) ∧
     (∀ hi, ({ min_price := some 2 } : Criteria).max_price = some hi →
        hi ≠ 0 → samplePrice5.price.getD 0 ≤ hi) ∧
     (∀ lo, ({ min_price := some 2 } : Criteria).min_price = some lo →
        0 < lo → samplePrice5.price ≠ none ∧
          lo ≤ samplePrice5.price.getD 0)) :=
  ⟨by decide,
   search_file_price_bounds [samplePrice5] { min_price := some 2 } 5
     samplePrice5 (by decide)⟩

/-- Counterexample for C2 as stated: `max_price = 0` is a supplied bound,
yet the record priced 5 is returned — a supplied zero bound is falsy and
is silently ignored, so not every returned record satisfies
`price ≤ maxPrice` for every supplied bound. -/
theorem search_file_zero_bound_counterexample :
    search_file [samplePrice5] { max_price := some 0 } 5 = [samplePrice5] ∧
    samplePrice5.price = some 5 := by
  constructor <;> rfl

/-- C3 (amended): when both price bounds are supplied and nonzero and
`minPrice > maxPrice`, `search` returns exactly zero records (the code
never raises: the embedding is a total function).  A supplied zero bound
is falsy and dropped, which is why the claim needs the nonzero proviso;
see the counterexample. -/
theorem search_file_inverted_bounds (props : List Property) (c : Criteria)
    (max : Int) (lo hi : Int) (hlo : c.min_price = some lo)
    (hhi : c.max_price = some hi) (hlo0 : lo ≠ 0) (hhi0 : hi ≠ 0)
    (hlt : hi < lo) :
    search_file props c max = [] := by
  rw [search_file]
  apply searchLoop_of_no_match
  intro p _
  by_contra hne
  have hm : matchesCriteria c p = true := by
    simpa using hne
  rcases matchesCriteria_eq_true hm with ⟨-, -, hmin, hmax, -, -⟩
  rw [hlo] at hmin
  rw [hhi] at hmax
  simp only [passes_min_price, passes_max_price, optIntTruthy,
    Option.getD_some] at hmin hmax
  have hlo' : (lo == 0) = false := by simpa using hlo0
  have hhi' : (hi == 0) = false := by simpa using hhi0
  simp only [hlo', hhi', Bool.not_false, if_true, Bool.not_eq_true',
    decide_eq_false_iff_not, not_lt] at hmin hmax
  omega

/-- Witness for C3: bounds 5 > 3 (both nonzero) yield zero records on a
nonempty catalog whose record would pass either bound alone. -/
theorem search_file_inverted_bounds_witness :
    ({ min_price := some 5, max_price := some 3 } : Criteria).min_price =
      some 5 ∧
    ({ min_price := some 5, max_price := some 3 } : Criteria).max_price =
      some 3 ∧
    (5 : Int) ≠ 0 ∧ (3 : Int) ≠ 0 ∧ (3 : Int) < 5 ∧
    search_file [samplePrice5, samplePrice10]
      { min_price := some 5, max_price := some 3 } 5 = [] :=
  ⟨rfl, rfl, by decide, by decide, by decide,
   search_file_inverted_bounds [samplePrice5, samplePrice10]
     { min_price := some 5, max_price := some 3 } 5 5 3 rfl rfl
     (by decide) (by decide) (by decide)⟩

/-- Counterexample for C3 as stated: `minPrice = 5 > maxPrice = 0` are
supplied numeric bounds, yet the search returns a record (price 10): the
zero upper bound is falsy and ignored, so inverted bounds do not always
yield zero records. -/
theorem search_file_inverted_bounds_counterexample :
    search_file [samplePrice10]
      { min_price := some 5, max_price := some 0 } 5 = [samplePrice10] := by
  rfl

/-- C4 (amended): a supplied *nonzero* bedrooms (resp. bathrooms) value
forces exact integer equality with the record's field — the record's
field must be present and equal, never "at least N" — and an unsupplied
criterion passes every record.  (A supplied value of 0 is falsy and
imposes no constraint; see the counterexample.) -/
theorem search_file_rooms_exact (props : List Property) (c : Criteria)
    (max : Int) (p : Property) (hp : p ∈ search_file props c max) :
    (∀ b, c.bedrooms = some b → b ≠ 0 → p.bedrooms = some b) ∧
    (∀ b, c.bathrooms = some b → b ≠ 0 → p.bathrooms = some b) ∧
    (∀ q : Property, passes_bedrooms none q = true ∧
      passes_bathrooms none q = true) := by
  rcases mem_searchLoop hp with h | h
  · simp at h
  rcases matchesCriteria_eq_true h.2 with ⟨-, -, -, -, hbed, hbath⟩
  refine ⟨?_, ?_, fun q => ⟨rfl, rfl⟩⟩
  · intro b hc hne
    rw [hc] at hbed
    simp only [passes_bedrooms, optIntTruthy] at hbed
    have : (b == 0) = false := by simpa using hne
    simp only [this, Bool.not_false, if_true, beq_iff_eq] at hbed
    exact hbed
  · intro b hc hne
    rw [hc] at hbath
    simp only [passes_bathrooms, optIntTruthy] at hbath
    have : (b == 0) = false := by simpa using hne
    simp only [this, Bool.not_false, if_true, beq_iff_eq] at hbath
    exact hbath

/-- Witness for C4: a two-bedroom record returned under `bedrooms = 2`
indeed has the field equal to 2. -/
theorem search_file_rooms_exact_witness :
    sampleBed2 ∈ search_file [sampleBed2] { bedrooms := some 2 } 5 ∧
    ((∀ b, ({ bedrooms := some 2 } : Criteria).bedrooms = some b →
        b ≠ 0 → sampleBed2.bedrooms = some b) ∧
     (∀ b, ({ bedrooms := some 2 } : Criteria).bathrooms = some b →
        b ≠ 0 → sampleBed2.bathrooms = some b) ∧
     (∀ q : Property, passes_bedrooms none q = true ∧
        passes_bathrooms none q = true)) :=
  ⟨by decide,
   search_file_rooms_exact [sampleBed2] { bedrooms := some 2 } 5 sampleBed2
     (by decide)⟩

/-- Counterexample for C4 as stated: with supplied `bedrooms = 0`, a
record with 3 bedrooms is still returned — a supplied zero is falsy and
imposes no constraint, so the returned record's field is not equal to the
supplied value. -/
theorem search_file_rooms_zero_counterexample :
    search_file [sampleBed3] { bedrooms := some 0 } 5 = [sampleBed3] ∧
    sampleBed3.bedrooms = some 3 := by
  constructor <;> rfl

/-- The empty character sequence occurs in every string. -/
theorem substrAux_nil_left (l : List Char) : substrAux [] l = true := by
  cases l <;> simp [substrAux, prefixAux]

/-- C5: under a supplied location text (and no other criterion), a record
survives the search filter iff the lowercased text is a substring of the
space-joined lowercased concatenation of its city, neighborhood and
address fields, missing fields contributing the empty string.  (An empty
supplied text is falsy and skips the filter, but the empty string is a
substring of everything, so the equivalence still holds.) -/
theorem search_location_filter (prop : Property) (loc : String) :
    matchesCriteria { location := some loc } prop =
      strContains
        (strLower (prop.city.getD "") ++ " " ++
         strLower (prop.neighborhood.getD "") ++ " " ++
         strLower (prop.address.getD "")) (strLower loc) := by
  have hred : matchesCriteria { location := some loc } prop =
      passes_location (some loc) prop := by
    simp [matchesCriteria, passes_type, passes_min_price,
      passes_max_price, passes_bedrooms, passes_bathrooms, optStrTruthy,
      optIntTruthy]
  rw [hred]
  by_cases hloc : loc = ""
  · subst hloc
    have h1 : passes_location (some "") prop = true := rfl
    have h2 : strLower "" = "" := rfl
    rw [h1, h2]
    exact (substrAux_nil_left _).symm
  · have htr : optStrTruthy (some loc) = true := by
      simp [optStrTruthy, hloc]
    simp only [passes_location, htr, if_true, Option.getD_some]

/-- C6: `get_property_details` in file mode is exactly the first-match
linear scan for case-sensitive id equality: it returns
`List.find?` of the predicate `prop.get("id") == property_id`, hence the
first record in load order with that id, and `none` when no record
carries it (duplicate ids: first occurrence wins). -/
theorem get_property_details_is_find (props : List Property)
    (pid : String) :
    get_property_details props pid =
      props.find? (fun p => p.id == some pid) := by
  induction props with
  | nil => rfl
  | cons q rest ih =>
    rw [get_property_details, List.find?]
    by_cases h : q.id == some pid
    · simp [h]
    · simp only [Bool.not_eq_true] at h
      simp [h, ih]

/-- Counterexample for C7 as stated: the single-record summary for the
spec's record P1 mentions neither "Koramangala" nor any lakh unit — the
single-record branch of `format_property_summary` uses the address field
and a plain dollar rendering. -/
theorem summary_p1_counterexample :
    strContains (format_property_summary [sampleKoramangala])
      "Koramangala" = false ∧
    strContains (format_property_summary [sampleKoramangala])
      "lakh" = false := by
  constructor <;> rfl

set_option maxRecDepth 8192 in
/-- C7 (amended): `format_property_summary([P1])` renders the price as a
plain comma-grouped dollar amount and falls back to "an available
location" (P1 has no address), so it contains neither "Koramangala" nor a
lakhs unit; it is the property-details response of the agent tool that
contains "Koramangala" and renders 9,500,000 in the lakhs unit
("₹95.00 lakhs"), being below the 10,000,000 threshold that routes to
crores (P2's 12,000,000 renders as "₹1.20 crores"). -/
theorem summary_p1_amended :
    format_property_summary [sampleKoramangala] =
      "I found a apartment at an available location. It has 2 bedrooms, 2 bathrooms, and is priced at $9,500,000. " ∧
    strContains
      (get_property_details_text [sampleKoramangala, sampleWhitefield] "P1")
      "Koramangala" = true ∧
    strContains
      (get_property_details_text [sampleKoramangala, sampleWhitefield] "P1")
      "₹95.00 lakhs" = true ∧
    format_price_indian 9500000 = "₹95.00 lakhs" ∧
    format_price_indian 12000000 = "₹1.20 crores" := by
  refine ⟨rfl, ?_, ?_, rfl, rfl⟩ <;> rfl

/-- C8: for every catalog of two or more records the summary is the count
header, then one clause per record for at most the first three records
(numbered from 1), then — only past three records — the note with the
number of omitted matches, then the closing question; in particular a
four-record input yields the "4" header, exactly the three clauses for
the first three records, and the "And 1 more options." note. -/
theorem summary_multi_structure :
    (∀ (a b : Property) (rest : List Property),
      format_property_summary (a :: b :: rest) =
        "I found " ++ toString (rest.length + 2) ++
        " properties. Here are the top matches: " ++
        summaryClauses 1 (a :: b :: rest.take 1) ++
        (if 3 < rest.length + 2 then
          "And " ++ toString (rest.length + 2 - 3) ++ " more options. "
        else "") ++
        "Would you like more details on any of these?") ∧
    (∀ r1 r2 r3 r4 : Property,
      format_property_summary [r1, r2, r3, r4] =
        "I found " ++ toString (4 : Nat) ++
        " properties. Here are the top matches: " ++
        (summaryClause 1 r1 ++ (summaryClause 2 r2 ++
          (summaryClause 3 r3 ++ ""))) ++
        ("And " ++ toString (1 : Nat) ++ " more options. ") ++
        "Would you like more details on any of these?") ∧
    toString (4 : Nat) = "4" ∧ toString (1 : Nat) = "1" := by
  refine ⟨?_, ?_, rfl, rfl⟩
  · intro a b rest
    rfl
  · intro r1 r2 r3 r4
    rfl

/-- C9: the loader never raises into the process — an unset data path, a
nonexistent file, an unreadable file and a malformed document all yield
the empty collection (the exception paths are caught), a parsed document
that is not an object yields the empty collection (the `data.get` call
raises inside the guarded block), and a parsed object lacking the
"properties" binding yields the `data.get` default, the empty
collection. -/
theorem load_from_file_degrades :
    load_from_file .noPath = [] ∧
    load_from_file .missingFile = [] ∧
    load_from_file .unreadable = [] ∧
    load_from_file .malformed = [] ∧
    load_from_file .parsedNonObj = [] ∧
    (∀ fields, jsonLookup "properties" fields = none →
      load_from_file (.parsedObj fields) = []) := by
  refine ⟨rfl, rfl, rfl, rfl, rfl, ?_⟩
  intro fields hmiss
  simp [load_from_file, tryLoad, hmiss]

/-- Witness for C9 at a parsed object holding only a "listings" key. -/
theorem load_from_file_degrades_witness :
    jsonLookup "properties" [("listings", [sampleEmpty])] = none ∧
    load_from_file (.parsedObj [("listings", [sampleEmpty])]) = [] :=
  ⟨by decide,
   load_from_file_degrades.2.2.2.2.2 [("listings", [sampleEmpty])]
     (by decide)⟩

/-- C10: a search that supplies a zero numeric criterion or an empty text
criterion returns exactly the same sequence as the identical search with
that criterion absent — Python truthiness makes `0` and `""` behave as
"unconstrained", for every catalog, criteria record and result cap. -/
theorem search_file_zero_unconstrained (props : List Property)
    (c : Criteria) (max : Int) :
    search_file props { c with bedrooms := some 0 } max =
      search_file props { c with bedrooms := none } max ∧
    search_file props { c with bathrooms := some 0 } max =
      search_file props { c with bathrooms := none } max ∧
    search_file props { c with min_price := some 0 } max =
      search_file props { c with min_price := none } max ∧
    search_file props { c with max_price := some 0 } max =
      search_file props { c with max_price := none } max ∧
    search_file props { c with location := some "" } max =
      search_file props { c with location := none } max ∧
    search_file props { c with property_type := some "" } max =
      search_file props { c with property_type := none } max := by
  have h1 : ∀ p, matchesCriteria { c with bedrooms := some 0 } p =
      matchesCriteria { c with bedrooms := none } p := fun _ => rfl
  have h2 : ∀ p, matchesCriteria { c with bathrooms := some 0 } p =
      matchesCriteria { c with bathrooms := none } p := fun _ => rfl
  have h3 : ∀ p, matchesCriteria { c with min_price := some 0 } p =
      matchesCriteria { c with min_price := none } p := fun _ => rfl
  have h4 : ∀ p, matchesCriteria { c with max_price := some 0 } p =
      matchesCriteria { c with max_price := none } p := fun _ => rfl
  have h5 : ∀ p, matchesCriteria { c with location := some "" } p =
      matchesCriteria { c with location := none } p := fun _ => rfl
  have h6 : ∀ p, matchesCriteria { c with property_type := some "" } p =
      matchesCriteria { c with property_type := none } p := fun _ => rfl
  exact ⟨searchLoop_congr h1 max props [], searchLoop_congr h2 max props [],
    searchLoop_congr h3 max props [], searchLoop_congr h4 max props [],
    searchLoop_congr h5 max props [], searchLoop_congr h6 max props []⟩

end IvyHomes
